import Mathlib

/-!
Verification development for the Kinesis infrastructure-composition repository
(`src/app.py`, `src/cloudinfra.py`).

The repository composes cloud resources (an artifact bucket, a security group,
IAM roles, a log group, fault-injection experiment templates and synthetic
canaries) from a per-region string-to-string configuration profile and a list
of application descriptors.  The shallow embedding below models:

  * the configuration context as an association list with Python-`dict`
    semantics (`cfgGet` raises `KeyError: k` as an `Except.error`, `cfgGet?`
    models `dict.get` which returns `None` when the key is absent);
  * every composer method of the `cloud_infra` stack class as a function
    from the configuration (plus the explicit cross-reference handles the
    Python method receives) to an `Except String` resource record carrying
    the properties the source sets on the provider construct;
  * `cloud_infra.__init__` as `cloud_infra_init`, which returns the list of
    composed resources in composition order together with `some err` when
    composition aborts with an uncaught exception (`KeyError`,
    `UnboundLocalError`), mirroring the order in which the Python constructor
    registers constructs before the failure point;
  * the `__main__` driver of `app.py` (fixed ordered region list, primary
    region = first region, per-region config injection) as `regions`,
    `primary_region` and `mkRegionConfig`.

Provider-derived attributes that the source never computes itself (the CIDR
block of a looked-up VPC, the account and region of the enclosing stack) are
passed as explicit parameters, mirroring `cdk.Environment` in `app.py`.
-/

namespace CloudInfra

/-- Configuration context: string-keyed, string-valued mapping, one per
(branch, region) pair, modelled as an association list (first match wins,
matching Python `dict` override-by-assignment via `mkRegionConfig`). -/
abbrev Cfg := List (String × String)

/-- Python `config.get(k)`: `some v` when present, `none` otherwise. -/
def cfgGet? (c : Cfg) (k : String) : Option String :=
  (c.find? (fun kv => kv.1 == k)).map (fun kv => kv.2)

/-- Python `config[k]`: the value, or a `KeyError` that aborts composition. -/
def cfgGet (c : Cfg) (k : String) : Except String String :=
  match cfgGet? c k with
  | some v => Except.ok v
  | none => Except.error ("KeyError: " ++ k)

/-- Sequencing of fallible composition steps (exception propagation). -/
def eseq {α β : Type} (x : Except String α) (f : α → Except String β) : Except String β :=
  match x with
  | Except.error e => Except.error e
  | Except.ok a => f a

/-- Helper for `splitComma`: splits a character list at every `','`. -/
def splitCommaAux : List Char → List Char × List (List Char)
  | [] => ([], [])
  | ch :: rest =>
      let r := splitCommaAux rest
      if ch = ',' then ([], r.1 :: r.2) else (ch :: r.1, r.2)

/-- Python `s.split(",")` (in particular `"".split(",") == [""]`). -/
def splitComma (s : String) : List String :=
  let r := splitCommaAux s.data
  (r.1 :: r.2).map (fun l => String.mk l)

/-- The shared naming scheme: every composer builds its construct id and
physical name as
`{resource_prefix}-{service_name}-{app_env}-{app_name}-{mid}-{resource_suffix}`,
reading the five naming keys from the configuration exactly as the source
f-strings do (a missing key is a `KeyError`). -/
def nameOf (c : Cfg) (mid : String) : Except String String :=
  eseq (cfgGet c "resource_prefix") (fun rp =>
  eseq (cfgGet c "service_name") (fun sn =>
  eseq (cfgGet c "app_env") (fun ae =>
  eseq (cfgGet c "app_name") (fun an =>
  eseq (cfgGet c "resource_suffix") (fun sfx =>
  Except.ok (rp ++ "-" ++ sn ++ "-" ++ ae ++ "-" ++ an ++ "-" ++ mid ++ "-" ++ sfx))))))

/-- One `s3.LifecycleRule` of the artifact bucket. -/
structure LifecycleRuleR where
  enabled : Bool
  id : String
  noncurrent_version_expiration_days : Nat
  noncurrent_versions_to_retain : Nat
deriving DecidableEq, Repr

/-- The `s3.Bucket` declaration of `create_artifact_store`
(`minimum_tls_version=1.2`, a float in the source, is recorded in tenths). -/
structure BucketR where
  id : String
  bucket_name : String
  block_public_access : String
  encryption : String
  minimum_tls_version_tenths : Nat
  object_ownership : String
  object_lock_enabled : Bool
  enforce_ssl : Bool
  versioned : Bool
  lifecycle_rules : List LifecycleRuleR
deriving DecidableEq, Repr

/-- An egress/ingress rule peer: a CIDR or a managed prefix list. -/
inductive SgPeer
  | ipv4 (cidr : String)
  | prefix_list (pl_id : String)
deriving DecidableEq, Repr

/-- One security-group rule (`ec2.Port.tcp(443)` etc.). -/
structure SgRule where
  peer : SgPeer
  protocol : String
  port : Nat
deriving DecidableEq, Repr

/-- The `ec2.SecurityGroup` declaration of `create_canary_security_group`. -/
structure SecurityGroupR where
  id : String
  security_group_name : String
  description : String
  allow_all_outbound : Bool
  egress_rules : List SgRule
  ingress_rules : List SgRule
deriving DecidableEq, Repr

/-- One `iam.PolicyStatement`. -/
structure PolicyStatementR where
  effect : String
  actions : List String
  resources : List String
deriving DecidableEq, Repr

/-- An `iam.Role` declaration (`role_arn` is the provider-derived handle
`arn:aws:iam::{account}:role/{name}` used for cross-references). -/
structure RoleR where
  id : String
  role_name : String
  assumed_by : String
  managed_policies : List String
  statements : List PolicyStatementR
  role_arn : String
deriving DecidableEq, Repr

/-- The `logs.LogGroup` declaration of `create_log_group`
(`log_group_arn` is the provider-derived handle used for cross-references). -/
structure LogGroupR where
  id : String
  log_group_name : String
  retention_days : Nat
  removal_policy : String
  log_group_arn : String
deriving DecidableEq, Repr

/-- One `fis.CfnExperimentTemplate.ExperimentTemplateTargetProperty`. -/
structure TargetR where
  resource_type : String
  resource_arns : List String
  resource_tags : List (String × String)
  parameters : List (String × String)
  selection_mode : String
deriving DecidableEq, Repr

/-- One `fis.CfnExperimentTemplate.ExperimentTemplateActionProperty`. -/
structure ActionR where
  action_id : String
  description : Option String
  parameters : List (String × String)
  targets : List (String × String)
deriving DecidableEq, Repr

/-- A `fis.CfnExperimentTemplate` declaration: named targets and actions,
experiment options, log configuration, stop conditions and tags. -/
structure ExperimentTemplateR where
  id : String
  description : String
  role_arn : String
  targets : List (String × TargetR)
  actions : List (String × ActionR)
  account_targeting : String
  empty_target_resolution_mode : String
  log_group_arn : String
  log_schema_version : Nat
  stop_condition_sources : List String
  tags : List (String × String)
deriving DecidableEq, Repr

/-- A `synthetics.CfnCanary` declaration of `create_canary`. -/
structure CanaryR where
  id : String
  canary_name : String
  runtime_version : String
  artifact_s3_location : String
  execution_role_arn : String
  handler : String
  script : String
  active_tracing : Bool
  env_target_url : String
  schedule_expression : String
  vpc_id : String
  subnet_ids : List String
  security_group_ids : List String
  success_retention_period : Nat
  failure_retention_period : Nat
  start_canary_after_creation : Bool
deriving DecidableEq, Repr

/-- The handle returned by `ec2.Vpc.from_lookup`: the id it was looked up by
and the provider-derived CIDR block. -/
structure VpcR where
  vpc_id : String
  vpc_cidr_block : String
deriving DecidableEq, Repr

/-- A composed resource declaration, tagged by kind. -/
inductive Resource
  | bucket (b : BucketR)
  | security_group (sg : SecurityGroupR)
  | role (r : RoleR)
  | log_group (lg : LogGroupR)
  | experiment (e : ExperimentTemplateR)
  | canary (cn : CanaryR)
deriving DecidableEq, Repr

/-- Modelled from the spec: the class `ApplicationConfig` lives in
`util/app_config.py`, which is not under `src/`.  The spec describes one
descriptor per monitored application holding "an ordered list of (name, URL)
pairs, a subnet identifier, and a canary-name suffix", loaded from JSON
objects shaped `{name, urls[], subnet_id, canary_name}`; the stack consumes
it through the accessors `get_app_names`, `get_app_urls`, `get_subnet_id`
and `get_canary_name`. -/
structure ApplicationConfig where
  app_names : List String
  app_urls : List String
  subnet_id : String
  canary_name : String
deriving DecidableEq, Repr

/-- Accessor `get_app_names` of `ApplicationConfig`. -/
def ApplicationConfig.get_app_names (a : ApplicationConfig) : List String := a.app_names

/-- Accessor `get_app_urls` of `ApplicationConfig`. -/
def ApplicationConfig.get_app_urls (a : ApplicationConfig) : List String := a.app_urls

/-- Accessor `get_subnet_id` of `ApplicationConfig`. -/
def ApplicationConfig.get_subnet_id (a : ApplicationConfig) : String := a.subnet_id

/-- Accessor `get_canary_name` of `ApplicationConfig`. -/
def ApplicationConfig.get_canary_name (a : ApplicationConfig) : String := a.canary_name

/-- `create_canary_security_group`: an egress-only security group
(`allow_all_outbound=False`, so no automatic egress rule), with exactly the
two explicitly added egress rules: TCP/443 to the VPC CIDR block and TCP/443
to the managed prefix list named by `config['s3_prefix_list']`. -/
def create_canary_security_group (c : Cfg) (vpc : VpcR) : Except String SecurityGroupR :=
  eseq (nameOf c "canary-sg") (fun nm =>
  eseq (cfgGet c "s3_prefix_list") (fun pl =>
  Except.ok
    { id := nm
      security_group_name := nm
      description := "Allow the communication from Canary"
      allow_all_outbound := false
      egress_rules :=
        [ { peer := SgPeer.ipv4 vpc.vpc_cidr_block, protocol := "tcp", port := 443 },
          { peer := SgPeer.prefix_list pl, protocol := "tcp", port := 443 } ]
      ingress_rules := [] }))

/-- `create_artifact_store`: the versioned, encrypted, TLS-enforced, fully
private canary artifact bucket with the 7-day / retain-1 noncurrent-version
lifecycle rule. -/
def create_artifact_store (c : Cfg) : Except String BucketR :=
  eseq (nameOf c "canary-s3") (fun bid =>
  eseq (cfgGet c "workload_account") (fun acct =>
  eseq (nameOf c ("canary-s3-" ++ acct)) (fun bname =>
  eseq (nameOf c "s3-lifecycle") (fun lcid =>
  Except.ok
    { id := bid
      bucket_name := bname
      block_public_access := "BLOCK_ALL"
      encryption := "S3_MANAGED"
      minimum_tls_version_tenths := 12
      object_ownership := "BUCKET_OWNER_ENFORCED"
      object_lock_enabled := false
      enforce_ssl := true
      versioned := true
      lifecycle_rules :=
        [ { enabled := true
            id := lcid
            noncurrent_version_expiration_days := 7
            noncurrent_versions_to_retain := 1 } ] }))))

/-- `create_canary_role`: the canary execution role (assumed by Lambda) with
its managed policies and the four inline policy statements. -/
def create_canary_role (c : Cfg) (account : String) (bucket_name : String) :
    Except String RoleR :=
  eseq (nameOf c "canary-role") (fun nm =>
  Except.ok
    { id := nm
      role_name := nm
      assumed_by := "lambda.amazonaws.com"
      managed_policies := ["CloudWatchSyntheticsFullAccess", "AmazonEC2FullAccess"]
      statements :=
        [ { effect := "Allow", actions := ["s3:PutObject", "s3:GetObject"],
            resources := ["arn:aws:s3:::" ++ bucket_name ++ "/*"] },
          { effect := "Allow", actions := ["s3:GetBucketLocation"],
            resources := ["arn:aws:s3:::" ++ bucket_name] },
          { effect := "Allow",
            actions := ["logs:CreateLogStream", "logs:PutLogEvents", "logs:CreateLogGroup"],
            resources := ["arn:aws:logs:*:" ++ account ++ ":log-group:/aws/lambda/*"] },
          { effect := "Allow",
            actions := ["s3:ListAllMyBuckets", "xray:PutTraceSegments",
                        "cloudwatch:PutMetricData", "ec2:CreateNetworkInterface",
                        "ec2:DescribeNetworkInterfaces", "ec2:DeleteNetworkInterface"],
            resources := ["*"] } ]
      role_arn := "arn:aws:iam::" ++ account ++ ":role/" ++ nm })

/-- `create_fis_role`: the FIS execution role (assumed by the FIS service)
with its five inline statements and four service-role managed policies. -/
def create_fis_role (c : Cfg) (account : String) : Except String RoleR :=
  eseq (nameOf c "exec-role") (fun nm =>
  eseq (cfgGet c "workload_account") (fun wa =>
  Except.ok
    { id := nm
      role_name := nm
      assumed_by := "fis.amazonaws.com"
      managed_policies :=
        [ "service-role/AWSFaultInjectionSimulatorNetworkAccess",
          "service-role/AWSFaultInjectionSimulatorRDSAccess",
          "service-role/AWSFaultInjectionSimulatorECSAccess",
          "service-role/AWSFaultInjectionSimulatorSSMAccess" ]
      statements :=
        [ { effect := "Allow", actions := ["fis:*"],
            resources :=
              [ "arn:aws:fis:*:" ++ wa ++ ":experiment-template/*",
                "arn:aws:fis:*:" ++ wa ++ ":safety-lever/*",
                "arn:aws:fis:*:" ++ wa ++ ":action/*",
                "arn:aws:fis:*:" ++ wa ++ ":experiment/*" ] },
          { effect := "Allow",
            actions :=
              [ "fis:ListExperimentTemplates", "fis:ListActions",
                "fis:ListTargetResourceTypes", "fis:ListExperiments",
                "fis:GetTargetResourceType", "logs:CreateLogDelivery",
                "logs:UpdateLogDelivery", "logs:GetLogDelivery",
                "logs:ListLogDeliveries", "ec2:CreateNetworkInterface",
                "ec2:DeleteNetworkInterfacePermission", "ec2:DescribeNetworkInterfaces",
                "ec2:CreateNetworkInterfacePermission", "ec2:DescribeVpcs",
                "ec2:CreateTags", "ec2:DeleteNetworkInterface", "ec2:DescribeSubnets" ],
            resources := ["*"] },
          { effect := "Allow", actions := ["iam:CreateServiceLinkedRole"],
            resources := ["arn:aws:iam::" ++ wa ++ ":role/*"] },
          { effect := "Allow", actions := ["logs:CreateLogStream", "logs:PutLogEvents"],
            resources := ["arn:aws:logs:*:*:log-group:/sw/fis/*:*"] },
          { effect := "Allow",
            actions :=
              [ "elasticache:InterruptClusterAzPower", "elasticache:TestFailover",
                "elasticache:FailoverGlobalReplicationGroup" ],
            resources :=
              [ "arn:aws:elasticache:*:" ++ account ++ ":replicationgroup:*",
                "arn:aws:elasticache::" ++ account ++ ":globalreplicationgroup:*" ] } ]
      role_arn := "arn:aws:iam::" ++ account ++ ":role/" ++ nm }))

/-- `lookup_vpc`: evaluates the construct-id f-string (the five naming keys),
then `config['vpc_id']`; the CIDR block of the returned handle is
provider-derived, supplied by `vpc_cidr_lookup`. -/
def lookup_vpc (vpc_cidr_lookup : String → String) (c : Cfg) : Except String VpcR :=
  eseq (nameOf c "vpc") (fun _ =>
  eseq (cfgGet c "vpc_id") (fun vid =>
  Except.ok { vpc_id := vid, vpc_cidr_block := vpc_cidr_lookup vid }))

/-- `create_log_group`: the shared per-stack FIS log group
(`/sw/fis/...`, one-month retention, destroy on removal). -/
def create_log_group (account region_name : String) (c : Cfg) : Except String LogGroupR :=
  eseq (nameOf c "fis-logs") (fun nm =>
  Except.ok
    { id := nm
      log_group_name := "/sw/fis/" ++ nm
      retention_days := 30
      removal_policy := "DESTROY"
      log_group_arn :=
        "arn:aws:logs:" ++ region_name ++ ":" ++ account ++ ":log-group:/sw/fis/" ++ nm })

/-- `canary_script_data`: the source returns a fixed ~50-line Python/selenium
HTTP-probe script literal (`verify_request` + `handler` reading
`TARGET_URL`).  No claim inspects the script text, so the literal is
abbreviated to a stand-in constant here. -/
def canary_script_data : String :=
  "python-selenium http probe script: verify_request(GET, TARGET_URL)"

/-- `create_canary`: one scheduled (`rate(1 minute)`) VPC-attached synthetic
canary per invocation, with 30-day success/failure artifact retention. -/
def create_canary (c : Cfg) (vpc : VpcR) (subnet_ids : List String)
    (security_group_id : List String) (canary_role : RoleR) (target_url : String)
    (canary_script : String) (app_name : String) (bucket_name : String)
    (region_name : String) : Except String CanaryR :=
  eseq (nameOf c ("canary-" ++ app_name)) (fun nm =>
  Except.ok
    { id := nm
      canary_name := nm
      runtime_version := "syn-python-selenium-5.0"
      artifact_s3_location := "s3://" ++ bucket_name ++ "/canary/" ++ region_name ++ "/" ++ nm
      execution_role_arn := canary_role.role_arn
      handler := "index.handler"
      script := canary_script
      active_tracing := false
      env_target_url := target_url
      schedule_expression := "rate(1 minute)"
      vpc_id := vpc.vpc_id
      subnet_ids := subnet_ids
      security_group_ids := security_group_id
      success_retention_period := 30
      failure_retention_period := 30
      start_canary_after_creation := true })

/-- `create_fis_network_subnet_experiment`: the AZ-power-failure experiment
(subnet connectivity disruption + RDS failover + ElastiCache AZ-power
interruption + wait).  The source first builds `db_arns` from
`db_app_list.split(",")` (reading the four naming keys) and `subnet_arns`
from `subnet_list.split(",")`; `db_arns` is computed but never referenced by
any target or action (the RDS target selects by tag), so its only observable
effect — the key accesses — is kept. -/
def create_fis_network_subnet_experiment (c : Cfg) (subnet_list test_name : String)
    (role : RoleR) (log_group : LogGroupR) (az_name db_app_list : String)
    (region_name account : String) : Except String ExperimentTemplateR :=
  eseq (cfgGet c "resource_prefix") (fun rp =>
  eseq (cfgGet c "service_name") (fun sn =>
  eseq (cfgGet c "app_env") (fun ae =>
  eseq (cfgGet c "resource_suffix") (fun sfx =>
  let _db_arns := (splitComma db_app_list).map (fun db =>
    "arn:aws:rds:" ++ region_name ++ ":" ++ account ++ ":cluster:" ++
      rp ++ "-" ++ sn ++ "-" ++ ae ++ "-" ++ db ++ "-" ++ sfx)
  eseq (nameOf c ("azfailure-experiment-" ++ test_name)) (fun nm =>
  Except.ok
    { id := nm
      description := "AZ Power Failure Simulation in " ++ test_name
      role_arn := role.role_arn
      targets :=
        [ ("SubnetDown",
            { resource_type := "aws:ec2:subnet"
              resource_arns :=
                (splitComma subnet_list).map (fun sb =>
                  "arn:aws:ec2:" ++ region_name ++ ":" ++ account ++ ":subnet/" ++ sb)
              resource_tags := []
              parameters := []
              selection_mode := "ALL" }),
          ("RDSFailover",
            { resource_type := "aws:rds:cluster"
              resource_arns := []
              resource_tags := [("sw:product", "mra")]
              parameters := [("writerAvailabilityZoneIdentifiers", az_name)]
              selection_mode := "ALL" }),
          ("ElastiCacheCluster",
            { resource_type := "aws:elasticache:replicationgroup"
              resource_arns := []
              resource_tags := [("sw:product", "mra")]
              parameters := [("availabilityZoneIdentifier", az_name)]
              selection_mode := "ALL" }) ]
      actions :=
        [ ("DisruptNetworkConnectivity",
            { action_id := "aws:network:disrupt-connectivity"
              description := some ("Disrupt network connectivity for subnets in " ++ test_name)
              parameters := [("duration", "PT15M"), ("scope", "all")]
              targets := [("Subnets", "SubnetDown")] }),
          ("RDSFailoverAction",
            { action_id := "aws:rds:failover-db-cluster"
              description := some "Aurora Serverless RDS Failover DB"
              parameters := []
              targets := [("Clusters", "RDSFailover")] }),
          ("PauseElastiCache",
            { action_id := "aws:elasticache:replicationgroup-interrupt-az-power"
              description := none
              parameters := [("duration", "PT15M")]
              targets := [("ReplicationGroups", "ElastiCacheCluster")] }),
          ("FISWait",
            { action_id := "aws:fis:wait"
              description := none
              parameters := [("duration", "PT15M")]
              targets := [] }) ]
      account_targeting := "single-account"
      empty_target_resolution_mode := "fail"
      log_group_arn := log_group.log_group_arn
      log_schema_version := 2
      stop_condition_sources := ["none"]
      tags := [("Name", nm), ("Environment", ae)] })))))

/-- `create_fis_ecs_task_stop_experiment`: one ECS-task-stop experiment per
(service, percent) pair; the target's `cluster` and `service` parameters are
fixed strings with constant `mra` and `fra` segments, independent of
`ecs_app_name`. -/
def create_fis_ecs_task_stop_experiment (c : Cfg) (role : RoleR) (log_group : LogGroupR)
    (ecs_app_name percent : String) : Except String ExperimentTemplateR :=
  eseq (nameOf c ("ecs-taskstop-" ++ ecs_app_name ++ "-p" ++ percent ++ "-experiment"))
    (fun nm =>
  eseq (cfgGet c "resource_prefix") (fun rp =>
  eseq (cfgGet c "app_env") (fun ae =>
  eseq (cfgGet c "resource_suffix") (fun sfx =>
  Except.ok
    { id := nm
      description := "Stop ECS Task for service app " ++ ecs_app_name ++ " with percent " ++ percent
      role_arn := role.role_arn
      targets :=
        [ ("ECSTaskStop",
            { resource_type := "aws:ecs:task"
              resource_arns := []
              resource_tags := []
              parameters :=
                [ ("cluster", rp ++ "-mra-" ++ ae ++ "-ecs-cluster-fra-" ++ sfx),
                  ("service", rp ++ "-mra-" ++ ae ++ "-ecs-service-fra-" ++ sfx) ]
              selection_mode := "PERCENT(" ++ percent ++ ")" }) ]
      actions :=
        [ ("ECSTaskStopAction",
            { action_id := "aws:ecs:stop-task"
              description :=
                some ("ECS Task Stop for service app " ++ ecs_app_name ++ " with percent " ++ percent)
              parameters := []
              targets := [("Tasks", "ECSTaskStop")] }) ]
      account_targeting := "single-account"
      empty_target_resolution_mode := "fail"
      log_group_arn := log_group.log_group_arn
      log_schema_version := 2
      stop_condition_sources := ["none"]
      tags := [("Name", nm), ("Environment", ae)] }))))

/-- `create_fis_rds_failover_experiment`: one Aurora RDS-failover experiment
per configured database-cluster name, targeting the cluster ARN built from
the naming keys and the db name. -/
def create_fis_rds_failover_experiment (c : Cfg) (role : RoleR) (log_group : LogGroupR)
    (db_app_name : String) (region_name account : String) :
    Except String ExperimentTemplateR :=
  eseq (nameOf c ("rdsfailover-" ++ db_app_name ++ "-experiment")) (fun nm =>
  eseq (cfgGet c "resource_prefix") (fun rp =>
  eseq (cfgGet c "service_name") (fun sn =>
  eseq (cfgGet c "app_env") (fun ae =>
  eseq (cfgGet c "resource_suffix") (fun sfx =>
  Except.ok
    { id := nm
      description := "Aurora Serverless RDS Failover DB " ++ db_app_name
      role_arn := role.role_arn
      targets :=
        [ ("RDSFailover",
            { resource_type := "aws:rds:cluster"
              resource_arns :=
                [ "arn:aws:rds:" ++ region_name ++ ":" ++ account ++ ":cluster:" ++
                    rp ++ "-" ++ sn ++ "-" ++ ae ++ "-" ++ db_app_name ++ "-" ++ sfx ]
              resource_tags := []
              parameters := []
              selection_mode := "ALL" }) ]
      actions :=
        [ ("RDSFailoverAction",
            { action_id := "aws:rds:failover-db-cluster"
              description := some ("Aurora Serverless RDS Failover DB " ++ db_app_name)
              parameters := []
              targets := [("Clusters", "RDSFailover")] }) ]
      account_targeting := "single-account"
      empty_target_resolution_mode := "fail"
      log_group_arn := log_group.log_group_arn
      log_schema_version := 2
      stop_condition_sources := ["none"]
      tags := [("Name", nm), ("Environment", ae)] })))))

/-- `create_fis_ecs_cluster_drain_experiment`: ECS container-instance drain
experiment (present in the catalog; its fan-out call in `__init__` is
commented out). -/
def create_fis_ecs_cluster_drain_experiment (c : Cfg) (role : RoleR)
    (log_group : LogGroupR) (percent : String) (region_name account : String) :
    Except String ExperimentTemplateR :=
  eseq (nameOf c ("ecs-drain-p" ++ percent ++ "-experiment")) (fun nm =>
  eseq (cfgGet c "resource_prefix") (fun rp =>
  eseq (cfgGet c "service_name") (fun sn =>
  eseq (cfgGet c "app_env") (fun ae =>
  eseq (cfgGet c "resource_suffix") (fun sfx =>
  Except.ok
    { id := nm
      description := "Drain ECS cluster container instances in percent " ++ percent
      role_arn := role.role_arn
      targets :=
        [ ("ECSClusterDrain",
            { resource_type := "aws:ecs:cluster"
              resource_arns :=
                [ "arn:aws:ecs:" ++ region_name ++ ":" ++ account ++ ":cluster/" ++
                    rp ++ "-" ++ sn ++ "-" ++ ae ++ "-ecs-cluster-infra-" ++ sfx ]
              resource_tags := []
              parameters := []
              selection_mode := "ALL" }) ]
      actions :=
        [ ("ECSDrain",
            { action_id := "aws:ecs:drain-container-instances"
              description :=
                some ("Drain ECS cluster container instances in percent " ++ percent)
              parameters := [("drainagePercentage", percent), ("duration", "PT15M")]
              targets := [("Clusters", "ECSClusterDrain")] }) ]
      account_targeting := "single-account"
      empty_target_resolution_mode := "fail"
      log_group_arn := log_group.log_group_arn
      log_schema_version := 2
      stop_condition_sources := ["none"]
      tags := [("Name", nm), ("Environment", ae)] })))))

/-- `create_fis_ecs_task_cpustress_experiment`: the ECS-task CPU-stress
experiment.  Present in the catalog; its fan-out in `__init__` is commented
out under "DO NOT ENABLE". -/
def create_fis_ecs_task_cpustress_experiment (c : Cfg) (role : RoleR)
    (log_group : LogGroupR) (ecs_app_name percent : String) :
    Except String ExperimentTemplateR :=
  eseq (nameOf c ("ecs-taskcpustress-" ++ ecs_app_name ++ "-p" ++ percent ++ "-experiment"))
    (fun nm =>
  eseq (cfgGet c "resource_prefix") (fun rp =>
  eseq (cfgGet c "app_env") (fun ae =>
  eseq (cfgGet c "resource_suffix") (fun sfx =>
  Except.ok
    { id := nm
      description :=
        "CPU Stress ECS Task for service app " ++ ecs_app_name ++ " with percent " ++ percent
      role_arn := role.role_arn
      targets :=
        [ ("ECSTaskCPUStress",
            { resource_type := "aws:ecs:task"
              resource_arns := []
              resource_tags := []
              parameters :=
                [ ("cluster", rp ++ "-mra-" ++ ae ++ "-ecs-cluster-fra-" ++ sfx),
                  ("service", rp ++ "-mra-" ++ ae ++ "-ecs-service-fra-" ++ sfx) ]
              selection_mode := "PERCENT(" ++ percent ++ ")" }) ]
      actions :=
        [ ("ECSTaskCPUStressAction",
            { action_id := "aws:ecs:task-cpu-stress"
              description :=
                some ("ECS Task CPU Stress for service app " ++ ecs_app_name ++
                      " with percent " ++ percent)
              parameters :=
                [ ("duration", "PT15M"), ("installDependencies", "true"),
                  ("percent", "100"), ("workers", "0") ]
              targets := [("Tasks", "ECSTaskCPUStress")] }) ]
      account_targeting := "single-account"
      empty_target_resolution_mode := "fail"
      log_group_arn := log_group.log_group_arn
      log_schema_version := 2
      stop_condition_sources := ["none"]
      tags := [("Name", nm), ("Environment", ae)] }))))

/-- `create_fis_ecs_task_iostress_experiment`: the ECS-task IO-stress
experiment.  Present in the catalog; its fan-out in `__init__` is commented
out under "DO NOT ENABLE". -/
def create_fis_ecs_task_iostress_experiment (c : Cfg) (role : RoleR)
    (log_group : LogGroupR) (ecs_app_name percent : String) :
    Except String ExperimentTemplateR :=
  eseq (nameOf c ("ecs-taskiostress-" ++ ecs_app_name ++ "-p" ++ percent ++ "-experiment"))
    (fun nm =>
  eseq (cfgGet c "resource_prefix") (fun rp =>
  eseq (cfgGet c "app_env") (fun ae =>
  eseq (cfgGet c "resource_suffix") (fun sfx =>
  Except.ok
    { id := nm
      description :=
        "IO Stress ECS Task for service app " ++ ecs_app_name ++ " with percent " ++ percent
      role_arn := role.role_arn
      targets :=
        [ ("ECSTaskIOStress",
            { resource_type := "aws:ecs:task"
              resource_arns := []
              resource_tags := []
              parameters :=
                [ ("cluster", rp ++ "-mra-" ++ ae ++ "-ecs-cluster-fra-" ++ sfx),
                  ("service", rp ++ "-mra-" ++ ae ++ "-ecs-service-fra-" ++ sfx) ]
              selection_mode := "PERCENT(" ++ percent ++ ")" }) ]
      actions :=
        [ ("ECSTaskIOStressAction",
            { action_id := "aws:ecs:task-io-stress"
              description :=
                some ("ECS Task IO Stress for service app " ++ ecs_app_name ++
                      " with percent " ++ percent)
              parameters :=
                [ ("duration", "PT15M"), ("installDependencies", "true"),
                  ("percent", "80"), ("workers", "1") ]
              targets := [("Tasks", "ECSTaskIOStress")] }) ]
      account_targeting := "single-account"
      empty_target_resolution_mode := "fail"
      log_group_arn := log_group.log_group_arn
      log_schema_version := 2
      stop_condition_sources := ["none"]
      tags := [("Name", nm), ("Environment", ae)] }))))

/-- The Topology Gate of `__init__` (lines 725 and 768):
`config.get("deployment_region") == config.get("primary_region")`. -/
def is_primary (c : Cfg) : Bool :=
  cfgGet? c "deployment_region" == cfgGet? c "primary_region"

/-- Fallible map over a list, aborting at the first exception — the behavior
of a Python `for` loop whose body may raise. -/
def exceptMapM {α β : Type} (f : α → Except String β) : List α → Except String (List β)
  | [] => Except.ok []
  | a :: as => eseq (f a) (fun b => eseq (exceptMapM f as) (fun bs => Except.ok (b :: bs)))

/-- The two fixed AZ-failure experiment calls of `__init__` (lines 729-736),
with the key accesses (`subnet_az1_list`, `az1_name`, `db_clusters`, then the
az2 counterparts) in argument-evaluation order. -/
def az_phase (c : Cfg) (fr : RoleR) (lg : LogGroupR) (region_name account : String) :
    Except String (List Resource) :=
  eseq (cfgGet c "subnet_az1_list") (fun sl1 =>
  eseq (cfgGet c "az1_name") (fun az1 =>
  eseq (cfgGet c "db_clusters") (fun dbs1 =>
  eseq (create_fis_network_subnet_experiment c sl1 "az1" fr lg az1 dbs1 region_name account)
    (fun e1 =>
  eseq (cfgGet c "subnet_az2_list") (fun sl2 =>
  eseq (cfgGet c "az2_name") (fun az2 =>
  eseq (cfgGet c "db_clusters") (fun dbs2 =>
  eseq (create_fis_network_subnet_experiment c sl2 "az2" fr lg az2 dbs2 region_name account)
    (fun e2 =>
  Except.ok [Resource.experiment e1, Resource.experiment e2]))))))))

/-- The ECS-task-stop fan-out of `__init__` (lines 739-743):
`for ecs_name in config['ecs_services'].split(","): for percent_val in
config['ecs_taks_percents'].split(","): create_fis_ecs_task_stop_experiment(...)`.
The inner key is read inside the outer loop, as in the source. -/
def ecs_stop_phase (c : Cfg) (fr : RoleR) (lg : LogGroupR) :
    Except String (List Resource) :=
  eseq (cfgGet c "ecs_services") (fun svcs =>
  eseq (exceptMapM (fun s =>
          eseq (cfgGet c "ecs_taks_percents") (fun pcts =>
          exceptMapM (fun p => create_fis_ecs_task_stop_experiment c fr lg s p)
            (splitComma pcts)))
        (splitComma svcs)) (fun ess =>
  Except.ok ((ess.flatten).map Resource.experiment)))

/-- The RDS-failover fan-out of `__init__` (lines 764-765). -/
def rds_phase (c : Cfg) (fr : RoleR) (lg : LogGroupR) (region_name account : String) :
    Except String (List Resource) :=
  eseq (cfgGet c "db_clusters") (fun dbs =>
  eseq (exceptMapM (fun db =>
          create_fis_rds_failover_experiment c fr lg db region_name account)
        (splitComma dbs)) (fun es =>
  Except.ok (es.map Resource.experiment)))

/-- The primary-region-only block of `__init__` (lines 725-765): the FIS
execution role, the two AZ-failure experiments, the ECS-task-stop fan-out and
the RDS-failover fan-out, emitted in composition order; resources already
composed are reported even when a later step raises. -/
def primary_phase (c : Cfg) (lg : LogGroupR) (region_name account : String) :
    List Resource × Option String :=
  if is_primary c then
    match create_fis_role c account with
    | Except.error e => ([], some e)
    | Except.ok fr =>
      match az_phase c fr lg region_name account with
      | Except.error e => ([Resource.role fr], some e)
      | Except.ok az_rs =>
        match ecs_stop_phase c fr lg with
        | Except.error e => (Resource.role fr :: az_rs, some e)
        | Except.ok ecs_rs =>
          match rds_phase c fr lg region_name account with
          | Except.error e => (Resource.role fr :: (az_rs ++ ecs_rs), some e)
          | Except.ok rds_rs => (Resource.role fr :: (az_rs ++ ecs_rs ++ rds_rs), none)
  else ([], none)

/-- The second primary-region gate of `__init__` (lines 768-769): the canary
role is assigned only when the gate holds; otherwise the local variable stays
unbound (`none`). -/
def canary_role_step (c : Cfg) (account bucket_name : String) :
    Except String (Option RoleR) :=
  if is_primary c then
    match create_canary_role c account bucket_name with
    | Except.error e => Except.error e
    | Except.ok r => Except.ok (some r)
  else Except.ok none

/-- The registration effect of the (possibly unbound) `canary_role` local:
one role resource when assigned, nothing otherwise. -/
def role_opt_res : Option RoleR → List Resource
  | some r => [Resource.role r]
  | none => []

/-- The canary fan-out of `__init__` (lines 773-778): one canary per
`(app_name, app_url)` pair of `zip(app.get_app_names(), app.get_app_urls())`
for every application descriptor.  Referencing the never-assigned
`canary_role` in a non-primary region raises `UnboundLocalError` at the first
loop iteration, before any canary is composed. -/
def canary_phase (c : Cfg) (vpc : VpcR) (sg_id : String) (canary_role_opt : Option RoleR)
    (script bucket_name region_name : String) (apps : List ApplicationConfig) :
    Except String (List Resource) :=
  eseq (exceptMapM (fun app =>
          exceptMapM (fun pr =>
              match canary_role_opt with
              | none => Except.error "UnboundLocalError: canary_role"
              | some cr =>
                  create_canary c vpc [app.get_subnet_id] [sg_id] cr pr.2 script
                    (pr.1 ++ "-" ++ app.get_canary_name) bucket_name region_name)
            (app.get_app_names.zip app.get_app_urls))
        apps) (fun css =>
  Except.ok ((css.flatten).map Resource.canary))

/-- `cloud_infra.__init__` (lines 709-778): the full per-region composition in
source order — artifact bucket, VPC lookup, log group, the primary-only FIS
block, the gated canary role, the canary security group, and the canary
fan-out.  Returns the composed resources in registration order plus `some
err` when an uncaught exception aborts the constructor; resources composed
before the failure point are retained, matching construct registration in the
Python stack. -/
def cloud_infra_init (vpc_cidr_lookup : String → String) (account region_name : String)
    (c : Cfg) (apps : List ApplicationConfig) : List Resource × Option String :=
  match create_artifact_store c with
  | Except.error e => ([], some e)
  | Except.ok bucket =>
    match lookup_vpc vpc_cidr_lookup c with
    | Except.error e => ([Resource.bucket bucket], some e)
    | Except.ok vpc =>
      match create_log_group account region_name c with
      | Except.error e => ([Resource.bucket bucket], some e)
      | Except.ok lg =>
        match primary_phase c lg region_name account with
        | (prs, some e) =>
            (Resource.bucket bucket :: Resource.log_group lg :: prs, some e)
        | (prs, none) =>
          match canary_role_step c account bucket.bucket_name with
          | Except.error e =>
              (Resource.bucket bucket :: Resource.log_group lg :: prs, some e)
          | Except.ok cr_opt =>
            match create_canary_security_group c vpc with
            | Except.error e =>
                (Resource.bucket bucket :: Resource.log_group lg ::
                  (prs ++ role_opt_res cr_opt), some e)
            | Except.ok sg =>
              match canary_phase c vpc sg.id cr_opt canary_script_data bucket.bucket_name
                      region_name apps with
              | Except.error e =>
                  (Resource.bucket bucket :: Resource.log_group lg ::
                    (prs ++ role_opt_res cr_opt ++ [Resource.security_group sg]), some e)
              | Except.ok cns =>
                  (Resource.bucket bucket :: Resource.log_group lg ::
                    (prs ++ role_opt_res cr_opt ++ [Resource.security_group sg] ++ cns), none)

/-- The fixed ordered region list of `app.py` (`region_config_files.keys()`). -/
def regions : List String := ["eu-central-1", "us-east-1"]

/-- `primary_region = regions[0]` — the first region, used for IAM. -/
def primary_region : String := regions.headD ""

/-- The per-region configuration of `app.py`:
`config["primary_region"] = primary_region; config["deployment_region"] = region`
on top of the branch profile (association-list prepend models dict override). -/
def mkRegionConfig (base : Cfg) (region_name : String) : Cfg :=
  ("deployment_region", region_name) :: ("primary_region", primary_region) :: base

/-- Whether a composed resource is an IAM role. -/
def is_role_res : Resource → Bool
  | Resource.role _ => true
  | _ => false

/-- Whether a composed resource is a fault-injection experiment template. -/
def is_experiment_res : Resource → Bool
  | Resource.experiment _ => true
  | _ => false

/-- Whether a composed resource is a synthetic canary. -/
def is_canary_res : Resource → Bool
  | Resource.canary _ => true
  | _ => false

/-- The composed (physical or construct) name of a resource — the string the
naming scheme is accountable for. -/
def resource_display_name : Resource → String
  | Resource.bucket b => b.bucket_name
  | Resource.security_group sg => sg.security_group_name
  | Resource.role r => r.role_name
  | Resource.log_group lg => lg.log_group_name
  | Resource.experiment e => e.id
  | Resource.canary cn => cn.canary_name

/-- The shared experiment-template policy: single-account targeting, `fail`
empty-target resolution, log configuration pointing at the given log-group
ARN, and the single `source: none` stop condition.  Trivially true for
non-experiment resources. -/
def experiment_policy_ok (lg_arn : String) : Resource → Bool
  | Resource.experiment e =>
      (e.account_targeting == "single-account") &&
      (e.empty_target_resolution_mode == "fail") &&
      (e.log_group_arn == lg_arn) &&
      (e.stop_condition_sources == ["none"])
  | _ => true

/-- The ARN of the log group that `__init__` creates for the given
configuration (empty when the log-group composer itself fails, in which case
no experiment is composed at all). -/
def log_group_arn_of (account region_name : String) (c : Cfg) : String :=
  match create_log_group account region_name c with
  | Except.ok lg => lg.log_group_arn
  | Except.error _ => ""

/-- Whether a resource is an experiment template containing an action with
the given action id. -/
def has_action (aid : String) : Resource → Bool
  | Resource.experiment e => e.actions.any (fun ap => ap.2.action_id == aid)
  | _ => false

/-- No ECS CPU-stress and no ECS IO-stress action anywhere in the resource. -/
def no_stress_actions (r : Resource) : Bool :=
  !(has_action "aws:ecs:task-cpu-stress" r) && !(has_action "aws:ecs:task-io-stress" r)

/-- Whether a string is free of whitespace characters. -/
def no_ws (s : String) : Bool := s.data.all (fun ch => !ch.isWhitespace)

/-- The five configuration keys interpolated by the naming scheme. -/
def naming_keys : List String :=
  ["resource_prefix", "service_name", "app_env", "app_name", "resource_suffix"]

/-- A representative branch profile (all keys of the per-region resource
config files referenced by the composers), used for concrete witnesses. -/
def demoBase : Cfg :=
  [ ("resource_prefix", "swm"), ("service_name", "mra"), ("app_env", "dev"),
    ("app_name", "chaos"), ("resource_suffix", "a"),
    ("workload_account", "123456789012"), ("vpc_id", "vpc-123"),
    ("subnet_az1_list", "subnet-a1,subnet-a2"), ("az1_name", "euc1-az1"),
    ("subnet_az2_list", "subnet-b1,subnet-b2"), ("az2_name", "euc1-az2"),
    ("db_clusters", "db1,db2"), ("ecs_services", "svc-a,svc-b"),
    ("ecs_taks_percents", "25,50"), ("s3_prefix_list", "pl-123") ]

/-- The primary-region (`eu-central-1`) configuration over `demoBase`. -/
def demoCfgPrimary : Cfg := mkRegionConfig demoBase "eu-central-1"

/-- The non-primary-region (`us-east-1`) configuration over `demoBase`. -/
def demoCfgSecondary : Cfg := mkRegionConfig demoBase "us-east-1"

/-- A demo application descriptor: one application with two (name, URL)
pairs — the two-URL scenario of the spec. -/
def demoApp : ApplicationConfig :=
  { app_names := ["app1", "app2"],
    app_urls := ["https://one.example.com", "https://two.example.com"],
    subnet_id := "subnet-app", canary_name := "web" }

/-- A concrete FIS role handle for invoking experiment composers directly. -/
def demoFisRole : RoleR :=
  { id := "swm-mra-dev-chaos-exec-role-a", role_name := "swm-mra-dev-chaos-exec-role-a",
    assumed_by := "fis.amazonaws.com", managed_policies := [], statements := [],
    role_arn := "arn:aws:iam::123456789012:role/swm-mra-dev-chaos-exec-role-a" }

/-- A concrete log-group handle for invoking experiment composers directly. -/
def demoLogGroup : LogGroupR :=
  { id := "swm-mra-dev-chaos-fis-logs-a",
    log_group_name := "/sw/fis/swm-mra-dev-chaos-fis-logs-a",
    retention_days := 30, removal_policy := "DESTROY",
    log_group_arn :=
      "arn:aws:logs:eu-central-1:123456789012:log-group:/sw/fis/swm-mra-dev-chaos-fis-logs-a" }

/-- A concrete VPC handle as returned by the lookup. -/
def demoVpc : VpcR := { vpc_id := "vpc-123", vpc_cidr_block := "10.0.0.0/16" }

/-- Sequencing after a success is application. -/
theorem eseq_ok_left {α β : Type} (a : α) (f : α → Except String β) :
    eseq (Except.ok a) f = f a := rfl

/-- Inversion for successful sequencing. -/
theorem eseq_ok {α β : Type} {x : Except String α} {f : α → Except String β} {b : β}
    (h : eseq x f = Except.ok b) : ∃ a, x = Except.ok a ∧ f a = Except.ok b := by
  cases x with
  | error e => simp [eseq] at h
  | ok a => exact ⟨a, rfl, h⟩

/-- `config[k]` succeeds exactly when `config.get(k)` is `some`. -/
theorem cfgGet_ok_iff {c : Cfg} {k v : String} :
    cfgGet c k = Except.ok v ↔ cfgGet? c k = some v := by
  unfold cfgGet
  cases h : cfgGet? c k <;> simp

/-- Members of a successful fallible map come from successful applications. -/
theorem exceptMapM_ok_mem {α β : Type} {f : α → Except String β} :
    ∀ {l : List α} {bs : List β}, exceptMapM f l = Except.ok bs →
      ∀ b ∈ bs, ∃ a ∈ l, f a = Except.ok b := by
  intro l
  induction l with
  | nil =>
      intro bs h b hb
      simp only [exceptMapM] at h
      cases h
      simp at hb
  | cons a as ih =>
      intro bs h b hb
      simp only [exceptMapM] at h
      obtain ⟨b0, hb0, h⟩ := eseq_ok h
      obtain ⟨bs0, hbs0, h⟩ := eseq_ok h
      cases h
      rcases List.mem_cons.mp hb with hEq | hMem
      · exact ⟨a, List.mem_cons_self a as, hEq ▸ hb0⟩
      · obtain ⟨a', ha', hfa'⟩ := ih hbs0 b hMem
        exact ⟨a', List.mem_cons_of_mem a ha', hfa'⟩

/-- A fallible map whose body always succeeds computes the ordinary map. -/
theorem exceptMapM_ok_of_forall {α β : Type} {f : α → Except String β} {g : α → β} :
    ∀ {l : List α}, (∀ a ∈ l, f a = Except.ok (g a)) →
      exceptMapM f l = Except.ok (l.map g) := by
  intro l
  induction l with
  | nil => intro; simp [exceptMapM]
  | cons a as ih =>
      intro h
      have ha : f a = Except.ok (g a) := h a (List.mem_cons_self a as)
      have has : exceptMapM f as = Except.ok (as.map g) :=
        ih (fun x hx => h x (List.mem_cons_of_mem a hx))
      simp [exceptMapM, ha, has, eseq]

/-- Every AZ-failure experiment satisfies the shared policy and carries no
stress action. -/
theorem az_experiment_policy {c : Cfg} {sl tn : String} {fr : RoleR} {lg : LogGroupR}
    {az dbs rg acct : String} {e : ExperimentTemplateR}
    (h : create_fis_network_subnet_experiment c sl tn fr lg az dbs rg acct = Except.ok e) :
    experiment_policy_ok lg.log_group_arn (Resource.experiment e) = true ∧
    no_stress_actions (Resource.experiment e) = true := by
  unfold create_fis_network_subnet_experiment at h
  obtain ⟨rp, _, h⟩ := eseq_ok h
  obtain ⟨sn, _, h⟩ := eseq_ok h
  obtain ⟨ae, _, h⟩ := eseq_ok h
  obtain ⟨sfx, _, h⟩ := eseq_ok h
  obtain ⟨nm, _, h⟩ := eseq_ok h
  cases h
  constructor
  · simp [experiment_policy_ok]
  · simp [no_stress_actions, has_action]

/-- Every ECS-task-stop experiment satisfies the shared policy and carries no
stress action. -/
theorem taskstop_experiment_policy {c : Cfg} {fr : RoleR} {lg : LogGroupR}
    {s p : String} {e : ExperimentTemplateR}
    (h : create_fis_ecs_task_stop_experiment c fr lg s p = Except.ok e) :
    experiment_policy_ok lg.log_group_arn (Resource.experiment e) = true ∧
    no_stress_actions (Resource.experiment e) = true := by
  unfold create_fis_ecs_task_stop_experiment at h
  obtain ⟨nm, _, h⟩ := eseq_ok h
  obtain ⟨rp, _, h⟩ := eseq_ok h
  obtain ⟨ae, _, h⟩ := eseq_ok h
  obtain ⟨sfx, _, h⟩ := eseq_ok h
  cases h
  constructor
  · simp [experiment_policy_ok]
  · simp [no_stress_actions, has_action]

/-- Every RDS-failover experiment satisfies the shared policy and carries no
stress action. -/
theorem rds_experiment_policy {c : Cfg} {fr : RoleR} {lg : LogGroupR}
    {db rg acct : String} {e : ExperimentTemplateR}
    (h : create_fis_rds_failover_experiment c fr lg db rg acct = Except.ok e) :
    experiment_policy_ok lg.log_group_arn (Resource.experiment e) = true ∧
    no_stress_actions (Resource.experiment e) = true := by
  unfold create_fis_rds_failover_experiment at h
  obtain ⟨nm, _, h⟩ := eseq_ok h
  obtain ⟨rp, _, h⟩ := eseq_ok h
  obtain ⟨sn, _, h⟩ := eseq_ok h
  obtain ⟨ae, _, h⟩ := eseq_ok h
  obtain ⟨sfx, _, h⟩ := eseq_ok h
  cases h
  constructor
  · simp [experiment_policy_ok]
  · simp [no_stress_actions, has_action]

/-- Every resource of a successful AZ phase is an on-policy, stress-free
experiment. -/
theorem az_phase_sound {c : Cfg} {fr : RoleR} {lg : LogGroupR} {rg acct : String}
    {rs : List Resource} (h : az_phase c fr lg rg acct = Except.ok rs) :
    ∀ r ∈ rs, is_experiment_res r = true ∧
      experiment_policy_ok lg.log_group_arn r = true ∧ no_stress_actions r = true := by
  unfold az_phase at h
  obtain ⟨sl1, _, h⟩ := eseq_ok h
  obtain ⟨az1, _, h⟩ := eseq_ok h
  obtain ⟨dbs1, _, h⟩ := eseq_ok h
  obtain ⟨e1, he1, h⟩ := eseq_ok h
  obtain ⟨sl2, _, h⟩ := eseq_ok h
  obtain ⟨az2, _, h⟩ := eseq_ok h
  obtain ⟨dbs2, _, h⟩ := eseq_ok h
  obtain ⟨e2, he2, h⟩ := eseq_ok h
  cases h
  intro r hr
  rcases List.mem_cons.mp hr with hEq | hr
  · subst hEq
    exact ⟨rfl, (az_experiment_policy he1).1, (az_experiment_policy he1).2⟩
  · rcases List.mem_cons.mp hr with hEq | hr
    · subst hEq
      exact ⟨rfl, (az_experiment_policy he2).1, (az_experiment_policy he2).2⟩
    · simp at hr

/-- Every resource of a successful ECS-task-stop phase is an on-policy,
stress-free experiment produced by the task-stop composer. -/
theorem ecs_stop_phase_sound {c : Cfg} {fr : RoleR} {lg : LogGroupR}
    {rs : List Resource} (h : ecs_stop_phase c fr lg = Except.ok rs) :
    ∀ r ∈ rs, is_experiment_res r = true ∧
      experiment_policy_ok lg.log_group_arn r = true ∧ no_stress_actions r = true := by
  unfold ecs_stop_phase at h
  obtain ⟨svcs, _, h⟩ := eseq_ok h
  obtain ⟨ess, hess, h⟩ := eseq_ok h
  cases h
  intro r hr
  obtain ⟨e, heMem, hre⟩ := List.mem_map.mp hr
  obtain ⟨inner, hinner, heInner⟩ := List.mem_flatten.mp heMem
  obtain ⟨s, _, hs⟩ := exceptMapM_ok_mem hess inner hinner
  obtain ⟨pcts, _, hs⟩ := eseq_ok hs
  obtain ⟨p, _, hp⟩ := exceptMapM_ok_mem hs e heInner
  subst hre
  exact ⟨rfl, (taskstop_experiment_policy hp).1, (taskstop_experiment_policy hp).2⟩

/-- Every resource of a successful RDS-failover phase is an on-policy,
stress-free experiment. -/
theorem rds_phase_sound {c : Cfg} {fr : RoleR} {lg : LogGroupR} {rg acct : String}
    {rs : List Resource} (h : rds_phase c fr lg rg acct = Except.ok rs) :
    ∀ r ∈ rs, is_experiment_res r = true ∧
      experiment_policy_ok lg.log_group_arn r = true ∧ no_stress_actions r = true := by
  unfold rds_phase at h
  obtain ⟨dbs, _, h⟩ := eseq_ok h
  obtain ⟨es, hes, h⟩ := eseq_ok h
  cases h
  intro r hr
  obtain ⟨e, heMem, hre⟩ := List.mem_map.mp hr
  obtain ⟨db, _, hdb⟩ := exceptMapM_ok_mem hes e heMem
  subst hre
  exact ⟨rfl, (rds_experiment_policy hdb).1, (rds_experiment_policy hdb).2⟩

/-- Every resource of the primary-only block is composed under a true gate and
is either a role or an on-policy, stress-free experiment. -/
theorem primary_phase_sound {c : Cfg} {lg : LogGroupR} {rg acct : String} :
    ∀ r ∈ (primary_phase c lg rg acct).1, is_primary c = true ∧
      (is_role_res r = true ∨
        (is_experiment_res r = true ∧ experiment_policy_ok lg.log_group_arn r = true ∧
          no_stress_actions r = true)) := by
  intro r hr
  unfold primary_phase at hr
  by_cases hp : is_primary c
  · simp only [hp, if_true] at hr
    refine ⟨hp, ?_⟩
    split at hr
    · simp at hr
    · split at hr
      · next heqAz =>
          simp only [List.mem_singleton] at hr
          subst hr
          exact Or.inl rfl
      · next az_rs heqAz =>
          split at hr
          · next heqEcs =>
              rcases List.mem_cons.mp hr with hEq | hr
              · subst hEq; exact Or.inl rfl
              · exact Or.inr (az_phase_sound heqAz r hr)
          · next ecs_rs heqEcs =>
              split at hr
              · next heqRds =>
                  rcases List.mem_cons.mp hr with hEq | hr
                  · subst hEq; exact Or.inl rfl
                  · rcases List.mem_append.mp hr with hr | hr
                    · exact Or.inr (az_phase_sound heqAz r hr)
                    · exact Or.inr (ecs_stop_phase_sound heqEcs r hr)
              · next rds_rs heqRds =>
                  rcases List.mem_cons.mp hr with hEq | hr
                  · subst hEq; exact Or.inl rfl
                  · rcases List.mem_append.mp hr with hr | hr
                    · rcases List.mem_append.mp hr with hr | hr
                      · exact Or.inr (az_phase_sound heqAz r hr)
                      · exact Or.inr (ecs_stop_phase_sound heqEcs r hr)
                    · exact Or.inr (rds_phase_sound heqRds r hr)
  · simp only [hp, if_false] at hr
    simp at hr

/-- The canary role is assigned only under a true gate. -/
theorem canary_role_step_some {c : Cfg} {acct bn : String} {r : RoleR}
    (h : canary_role_step c acct bn = Except.ok (some r)) : is_primary c = true := by
  unfold canary_role_step at h
  by_cases hp : is_primary c
  · exact hp
  · simp only [hp, if_false] at h
    cases h

/-- Every resource of a successful canary phase is a canary. -/
theorem canary_phase_sound {c : Cfg} {vpc : VpcR} {sgi : String} {cro : Option RoleR}
    {scr bn rg : String} {apps : List ApplicationConfig} {rs : List Resource}
    (h : canary_phase c vpc sgi cro scr bn rg apps = Except.ok rs) :
    ∀ r ∈ rs, is_canary_res r = true := by
  unfold canary_phase at h
  obtain ⟨css, _, h⟩ := eseq_ok h
  cases h
  intro r hr
  obtain ⟨cn, _, hre⟩ := List.mem_map.mp hr
  subst hre
  rfl

/-- A non-role, non-experiment resource satisfies all four init-soundness
conjuncts for free. -/
theorem plain_resource_sound {arn : String} (c : Cfg) {r : Resource}
    (h1 : is_role_res r = false) (h2 : is_experiment_res r = false)
    (h3 : experiment_policy_ok arn r = true) (h4 : no_stress_actions r = true) :
    (is_role_res r = true → is_primary c = true) ∧
    (is_experiment_res r = true → is_primary c = true) ∧
    experiment_policy_ok arn r = true ∧ no_stress_actions r = true :=
  ⟨fun hh => absurd hh (by simp [h1]), fun hh => absurd hh (by simp [h2]), h3, h4⟩

/-- Master soundness of `cloud_infra.__init__`: every composed resource
(i) is a role only when the gate holds, (ii) is an experiment only when the
gate holds, (iii) satisfies the shared experiment policy against the stack's
log group, and (iv) carries no ECS stress action. -/
theorem init_resources_sound {vcl : String → String} {acct rg : String} {c : Cfg}
    {apps : List ApplicationConfig} :
    ∀ r ∈ (cloud_infra_init vcl acct rg c apps).1,
      (is_role_res r = true → is_primary c = true) ∧
      (is_experiment_res r = true → is_primary c = true) ∧
      experiment_policy_ok (log_group_arn_of acct rg c) r = true ∧
      no_stress_actions r = true := by
  intro r hr
  unfold cloud_infra_init at hr
  split at hr
  · simp at hr
  · next bucket hBucket =>
    split at hr
    · simp only [List.mem_singleton] at hr
      subst hr
      exact plain_resource_sound c rfl rfl rfl rfl
    · next vpc hVpc =>
      split at hr
      · simp only [List.mem_singleton] at hr
        subst hr
        exact plain_resource_sound c rfl rfl rfl rfl
      · next lg hLg =>
        have hArn : log_group_arn_of acct rg c = lg.log_group_arn := by
          unfold log_group_arn_of
          rw [hLg]
        rw [hArn]
        have hFromPrim : ∀ x, x ∈ (primary_phase c lg rg acct).1 →
            (is_role_res x = true → is_primary c = true) ∧
            (is_experiment_res x = true → is_primary c = true) ∧
            experiment_policy_ok lg.log_group_arn x = true ∧
            no_stress_actions x = true := by
          intro x hx
          have hs := primary_phase_sound x hx
          rcases hs.2 with hRole | hExp
          · cases x <;> first
              | exact ⟨fun _ => hs.1, fun h => absurd h (by simp [is_experiment_res]),
                  rfl, rfl⟩
              | simp [is_role_res] at hRole
          · exact ⟨fun _ => hs.1, fun _ => hs.1, hExp.2.1, hExp.2.2⟩
        split at hr
        · next prs e hPrim =>
          rcases List.mem_cons.mp hr with hEq | hr
          · subst hEq
            exact plain_resource_sound c rfl rfl rfl rfl
          · rcases List.mem_cons.mp hr with hEq | hr
            · subst hEq
              exact plain_resource_sound c rfl rfl rfl rfl
            · exact hFromPrim r (by rw [hPrim]; exact hr)
        · next prs hPrim =>
          have hPrimMem : ∀ x, x ∈ prs →
              (is_role_res x = true → is_primary c = true) ∧
              (is_experiment_res x = true → is_primary c = true) ∧
              experiment_policy_ok lg.log_group_arn x = true ∧
              no_stress_actions x = true := by
            intro x hx
            exact hFromPrim x (by rw [hPrim]; exact hx)
          split at hr
          · rcases List.mem_cons.mp hr with hEq | hr
            · subst hEq
              exact plain_resource_sound c rfl rfl rfl rfl
            · rcases List.mem_cons.mp hr with hEq | hr
              · subst hEq
                exact plain_resource_sound c rfl rfl rfl rfl
              · exact hPrimMem r hr
          · next cr_opt hCr =>
            have hCrMem : ∀ x, x ∈ role_opt_res cr_opt →
                (is_role_res x = true → is_primary c = true) ∧
                (is_experiment_res x = true → is_primary c = true) ∧
                experiment_policy_ok lg.log_group_arn x = true ∧
                no_stress_actions x = true := by
              intro x hx
              cases cr_opt with
              | none => simp [role_opt_res] at hx
              | some r' =>
                  simp only [role_opt_res, List.mem_singleton] at hx
                  subst hx
                  exact ⟨fun _ => canary_role_step_some hCr,
                    fun h => absurd h (by simp [is_experiment_res]), rfl, rfl⟩
            split at hr
            · rcases List.mem_cons.mp hr with hEq | hr
              · subst hEq
                exact plain_resource_sound c rfl rfl rfl rfl
              · rcases List.mem_cons.mp hr with hEq | hr
                · subst hEq
                  exact plain_resource_sound c rfl rfl rfl rfl
                · rcases List.mem_append.mp hr with hr | hr
                  · exact hPrimMem r hr
                  · exact hCrMem r hr
            · next sg hSg =>
              split at hr
              · rcases List.mem_cons.mp hr with hEq | hr
                · subst hEq
                  exact plain_resource_sound c rfl rfl rfl rfl
                · rcases List.mem_cons.mp hr with hEq | hr
                  · subst hEq
                    exact plain_resource_sound c rfl rfl rfl rfl
                  · rcases List.mem_append.mp hr with hr | hr
                    · rcases List.mem_append.mp hr with hr | hr
                      · exact hPrimMem r hr
                      · exact hCrMem r hr
                    · simp only [List.mem_singleton] at hr
                      subst hr
                      exact plain_resource_sound c rfl rfl rfl rfl
              · next cns hCn =>
                rcases List.mem_cons.mp hr with hEq | hr
                · subst hEq
                  exact plain_resource_sound c rfl rfl rfl rfl
                · rcases List.mem_cons.mp hr with hEq | hr
                  · subst hEq
                    exact plain_resource_sound c rfl rfl rfl rfl
                  · rcases List.mem_append.mp hr with hr | hr
                    · rcases List.mem_append.mp hr with hr | hr
                      · rcases List.mem_append.mp hr with hr | hr
                        · exact hPrimMem r hr
                        · exact hCrMem r hr
                      · simp only [List.mem_singleton] at hr
                        subst hr
                        exact plain_resource_sound c rfl rfl rfl rfl
                    · have hc := canary_phase_sound hCn r hr
                      cases r <;> first
                        | exact plain_resource_sound c rfl rfl rfl rfl
                        | simp [is_canary_res] at hc

/-- Fallback record used only to make `Except`-extraction total. -/
def fallbackBucket : BucketR :=
  { id := "", bucket_name := "", block_public_access := "", encryption := "",
    minimum_tls_version_tenths := 0, object_ownership := "", object_lock_enabled := false,
    enforce_ssl := false, versioned := false, lifecycle_rules := [] }

/-- Fallback record used only to make `Except`-extraction total. -/
def fallbackSg : SecurityGroupR :=
  { id := "", security_group_name := "", description := "", allow_all_outbound := true,
    egress_rules := [], ingress_rules := [] }

/-- Fallback record used only to make `Except`-extraction total. -/
def fallbackExperiment : ExperimentTemplateR :=
  { id := "", description := "", role_arn := "", targets := [], actions := [],
    account_targeting := "", empty_target_resolution_mode := "", log_group_arn := "",
    log_schema_version := 0, stop_condition_sources := [], tags := [] }

/-- The artifact bucket composed for the demo primary configuration. -/
def demoBucket : BucketR :=
  match create_artifact_store demoCfgPrimary with
  | Except.ok b => b
  | Except.error _ => fallbackBucket

/-- The canary security group composed for the demo primary configuration. -/
def demoSg : SecurityGroupR :=
  match create_canary_security_group demoCfgPrimary demoVpc with
  | Except.ok sg => sg
  | Except.error _ => fallbackSg

/-- C1: the Topology Gate holds exactly when `deployment_region` equals
`primary_region` (the first region of the fixed ordered region list); over
the configured region set the gate is true for exactly one region; and any
role or experiment template in a composed stack exists only under a true
gate (so the FIS execution role, all experiment templates and the canary
role are composed only in the primary region). -/
theorem C1_topology_gate :
    (∀ (base : Cfg) (r0 : String),
        is_primary (mkRegionConfig base r0) = (r0 == primary_region)) ∧
    (∀ base : Cfg,
        ((regions.filter (fun r0 => is_primary (mkRegionConfig base r0))).length) = 1) ∧
    (∀ (vcl : String → String) (acct rg : String) (c : Cfg)
        (apps : List ApplicationConfig),
        ((cloud_infra_init vcl acct rg c apps).1.all
          (fun r => is_primary c || (!(is_role_res r) && !(is_experiment_res r)))) = true) := by
  refine ⟨fun base r0 => rfl, fun base => rfl, ?_⟩
  intro vcl acct rg c apps
  rw [List.all_eq_true]
  intro r hr
  obtain ⟨hR, hE, _, _⟩ := init_resources_sound r hr
  cases hp : is_primary c with
  | true => simp
  | false =>
      cases hRole : is_role_res r with
      | true => exact absurd (hR hRole) (by simp [hp])
      | false =>
          cases hExp : is_experiment_res r with
          | true => exact absurd (hE hExp) (by simp [hp])
          | false => simp [hRole, hExp]

/-- C6: for every configuration on which it succeeds, the artifact-store
composer produces a versioned, S3-managed-encrypted, SSL-enforced,
fully-private (block-all public access, bucket-owner-enforced) bucket whose
single lifecycle rule expires noncurrent versions after exactly 7 days and
retains exactly 1 noncurrent version. -/
theorem C6_artifact_store_policy :
    ∀ (c : Cfg) (b : BucketR), create_artifact_store c = Except.ok b →
      b.versioned = true ∧ b.encryption = "S3_MANAGED" ∧ b.enforce_ssl = true ∧
      b.block_public_access = "BLOCK_ALL" ∧ b.object_ownership = "BUCKET_OWNER_ENFORCED" ∧
      b.lifecycle_rules.map (fun lr =>
        (lr.noncurrent_version_expiration_days, lr.noncurrent_versions_to_retain,
          lr.enabled)) = [(7, 1, true)] := by
  intro c b h
  unfold create_artifact_store at h
  obtain ⟨bid, _, h⟩ := eseq_ok h
  obtain ⟨acct, _, h⟩ := eseq_ok h
  obtain ⟨bname, _, h⟩ := eseq_ok h
  obtain ⟨lcid, _, h⟩ := eseq_ok h
  cases h
  exact ⟨rfl, rfl, rfl, rfl, rfl, rfl⟩

/-- Witness for C6 at the demo primary configuration. -/
theorem C6_artifact_store_policy_witness :
    demoBucket.versioned = true ∧ demoBucket.encryption = "S3_MANAGED" ∧
    demoBucket.enforce_ssl = true ∧ demoBucket.block_public_access = "BLOCK_ALL" ∧
    demoBucket.object_ownership = "BUCKET_OWNER_ENFORCED" ∧
    demoBucket.lifecycle_rules.map (fun lr =>
      (lr.noncurrent_version_expiration_days, lr.noncurrent_versions_to_retain,
        lr.enabled)) = [(7, 1, true)] :=
  C6_artifact_store_policy demoCfgPrimary demoBucket rfl

/-- C7: for every configuration on which it succeeds, the canary
security-group composer disables automatic egress and produces exactly the
two egress rules — outbound TCP/443 to the VPC CIDR block and outbound
TCP/443 to the configured managed prefix list — and no ingress rule. -/
theorem C7_canary_sg_rules :
    ∀ (c : Cfg) (vpc : VpcR) (sg : SecurityGroupR),
      create_canary_security_group c vpc = Except.ok sg →
      sg.allow_all_outbound = false ∧ sg.ingress_rules = [] ∧
      ∃ pl, cfgGet? c "s3_prefix_list" = some pl ∧
        sg.egress_rules =
          [ { peer := SgPeer.ipv4 vpc.vpc_cidr_block, protocol := "tcp", port := 443 },
            { peer := SgPeer.prefix_list pl, protocol := "tcp", port := 443 } ] := by
  intro c vpc sg h
  unfold create_canary_security_group at h
  obtain ⟨nm, _, h⟩ := eseq_ok h
  obtain ⟨pl, hpl, h⟩ := eseq_ok h
  cases h
  exact ⟨rfl, rfl, pl, cfgGet_ok_iff.mp hpl, rfl⟩

/-- Witness for C7 at the demo primary configuration and demo VPC. -/
theorem C7_canary_sg_rules_witness :
    demoSg.allow_all_outbound = false ∧ demoSg.ingress_rules = [] ∧
    ∃ pl, cfgGet? demoCfgPrimary "s3_prefix_list" = some pl ∧
      demoSg.egress_rules =
        [ { peer := SgPeer.ipv4 demoVpc.vpc_cidr_block, protocol := "tcp", port := 443 },
          { peer := SgPeer.prefix_list pl, protocol := "tcp", port := 443 } ] :=
  C7_canary_sg_rules demoCfgPrimary demoVpc demoSg rfl

/-- C8: every experiment template in any composed stack has single-account
targeting, `fail` empty-target resolution, a log configuration pointing at
the stack's shared FIS log group, and exactly the one `source: none` stop
condition (trivially satisfied by non-experiment resources). -/
theorem C8_experiment_shared_policy :
    ∀ (vcl : String → String) (acct rg : String) (c : Cfg)
      (apps : List ApplicationConfig),
      ((cloud_infra_init vcl acct rg c apps).1.all
        (experiment_policy_ok (log_group_arn_of acct rg c))) = true := by
  intro vcl acct rg c apps
  rw [List.all_eq_true]
  intro r hr
  exact (init_resources_sound r hr).2.2.1

/-- The CPU-stress experiment the disabled composer would produce on the demo
configuration. -/
def demoCpuStressExp : ExperimentTemplateR :=
  match create_fis_ecs_task_cpustress_experiment demoCfgPrimary demoFisRole demoLogGroup
      "svc-a" "25" with
  | Except.ok e => e
  | Except.error _ => fallbackExperiment

/-- The IO-stress experiment the disabled composer would produce on the demo
configuration. -/
def demoIoStressExp : ExperimentTemplateR :=
  match create_fis_ecs_task_iostress_experiment demoCfgPrimary demoFisRole demoLogGroup
      "svc-a" "25" with
  | Except.ok e => e
  | Except.error _ => fallbackExperiment

/-- C9: no composed stack ever contains an ECS-task CPU-stress or IO-stress
experiment, while both composers remain present in the catalog (each would
produce such an experiment if invoked). -/
theorem C9_stress_experiments_disabled :
    (∀ (vcl : String → String) (acct rg : String) (c : Cfg)
        (apps : List ApplicationConfig),
        ((cloud_infra_init vcl acct rg c apps).1.all no_stress_actions) = true) ∧
    (create_fis_ecs_task_cpustress_experiment demoCfgPrimary demoFisRole demoLogGroup
        "svc-a" "25" = Except.ok demoCpuStressExp ∧
      has_action "aws:ecs:task-cpu-stress" (Resource.experiment demoCpuStressExp) = true) ∧
    (create_fis_ecs_task_iostress_experiment demoCfgPrimary demoFisRole demoLogGroup
        "svc-a" "25" = Except.ok demoIoStressExp ∧
      has_action "aws:ecs:task-io-stress" (Resource.experiment demoIoStressExp) = true) := by
  refine ⟨?_, ⟨rfl, by decide⟩, ⟨rfl, by decide⟩⟩
  intro vcl acct rg c apps
  rw [List.all_eq_true]
  intro r hr
  exact (init_resources_sound r hr).2.2.2

/-- C2 (code bug): composing the non-primary region `us-east-1` with one
application holding two (name, URL) pairs aborts with
`UnboundLocalError: canary_role` — the canary role is assigned only under the
primary gate yet is referenced by the canary loop in every region — so zero
canaries are composed there, while the same application yields exactly 2
canaries (one per URL) in the primary region. -/
theorem C2_nonprimary_canary_unbound_role :
    (cloud_infra_init (fun _ => "10.0.0.0/16") "123456789012" "us-east-1"
        demoCfgSecondary [demoApp]).2 = some "UnboundLocalError: canary_role" ∧
    ((cloud_infra_init (fun _ => "10.0.0.0/16") "123456789012" "us-east-1"
        demoCfgSecondary [demoApp]).1.countP is_canary_res) = 0 ∧
    ((cloud_infra_init (fun _ => "10.0.0.0/16") "123456789012" "eu-central-1"
        demoCfgPrimary [demoApp]).1.countP is_canary_res) = 2 ∧
    (cloud_infra_init (fun _ => "10.0.0.0/16") "123456789012" "eu-central-1"
        demoCfgPrimary [demoApp]).2 = none :=
  ⟨rfl, rfl, rfl, rfl⟩

/-- Whether a composed resource is the artifact bucket. -/
def is_bucket_res : Resource → Bool
  | Resource.bucket _ => true
  | _ => false

/-- The demo branch profile with the `vpc_id` key removed. -/
def demoNoVpc : Cfg := demoBase.filter (fun kv => !(kv.1 == "vpc_id"))

/-- Counterexample to C4 as stated: on a profile lacking `vpc_id`,
composition does fail, but not before any resource is emitted — exactly one
resource (the artifact-store bucket) has already been composed when the
`KeyError` aborts the constructor. -/
theorem C4_bucket_before_failure_counterexample :
    ((cloud_infra_init (fun _ => "10.0.0.0/16") "123456789012" "eu-central-1"
        demoNoVpc []).2.isSome = true) ∧
    ((cloud_infra_init (fun _ => "10.0.0.0/16") "123456789012" "eu-central-1"
        demoNoVpc []).1.length = 1) ∧
    ((cloud_infra_init (fun _ => "10.0.0.0/16") "123456789012" "eu-central-1"
        demoNoVpc []).1.countP is_bucket_res = 1) :=
  ⟨rfl, rfl, rfl⟩

/-- C4 (amended): when the configuration lacks `vpc_id` (all naming keys and
the workload account being present), composition of the region fails with
`KeyError: vpc_id` raised by the VPC lookup; at that point exactly the
artifact-store bucket — and nothing else — has been composed, and the abort
means no per-region manifest is synthesized. -/
theorem C4_missing_vpc_id_amended :
    ∀ (vcl : String → String) (acct rg : String) (c : Cfg)
      (apps : List ApplicationConfig) (rp sn ae an sfx wa : String),
      cfgGet? c "resource_prefix" = some rp →
      cfgGet? c "service_name" = some sn →
      cfgGet? c "app_env" = some ae →
      cfgGet? c "app_name" = some an →
      cfgGet? c "resource_suffix" = some sfx →
      cfgGet? c "workload_account" = some wa →
      cfgGet? c "vpc_id" = none →
      ∃ b, create_artifact_store c = Except.ok b ∧
        cloud_infra_init vcl acct rg c apps =
          ([Resource.bucket b], some "KeyError: vpc_id") := by
  intro vcl acct rg c apps rp sn ae an sfx wa h1 h2 h3 h4 h5 h6 h7
  have hname : ∀ mid, nameOf c mid =
      Except.ok (rp ++ "-" ++ sn ++ "-" ++ ae ++ "-" ++ an ++ "-" ++ mid ++ "-" ++ sfx) := by
    intro mid
    simp [nameOf, cfgGet, h1, h2, h3, h4, h5, eseq]
  have hb : create_artifact_store c = Except.ok
      { id := rp ++ "-" ++ sn ++ "-" ++ ae ++ "-" ++ an ++ "-" ++ "canary-s3" ++ "-" ++ sfx
        bucket_name := rp ++ "-" ++ sn ++ "-" ++ ae ++ "-" ++ an ++ "-" ++
          ("canary-s3-" ++ wa) ++ "-" ++ sfx
        block_public_access := "BLOCK_ALL"
        encryption := "S3_MANAGED"
        minimum_tls_version_tenths := 12
        object_ownership := "BUCKET_OWNER_ENFORCED"
        object_lock_enabled := false
        enforce_ssl := true
        versioned := true
        lifecycle_rules :=
          [ { enabled := true
              id := rp ++ "-" ++ sn ++ "-" ++ ae ++ "-" ++ an ++ "-" ++ "s3-lifecycle" ++
                "-" ++ sfx
              noncurrent_version_expiration_days := 7
              noncurrent_versions_to_retain := 1 } ] } := by
    simp [create_artifact_store, hname, cfgGet, h6, eseq]
  have hv : lookup_vpc vcl c = Except.error "KeyError: vpc_id" := by
    simp [lookup_vpc, hname, cfgGet, h7, eseq]
  refine ⟨_, hb, ?_⟩
  unfold cloud_infra_init
  rw [hb, hv]

/-- Witness for C4 (amended) at the demo profile without `vpc_id`. -/
theorem C4_missing_vpc_id_witness :
    ∃ b, create_artifact_store demoNoVpc = Except.ok b ∧
      cloud_infra_init (fun _ => "10.0.0.0/16") "123456789012" "eu-central-1"
          demoNoVpc [] = ([Resource.bucket b], some "KeyError: vpc_id") :=
  C4_missing_vpc_id_amended (fun _ => "10.0.0.0/16") "123456789012" "eu-central-1"
    demoNoVpc [] "swm" "mra" "dev" "chaos" "a" "123456789012"
    rfl rfl rfl rfl rfl rfl rfl

/-- The demo primary configuration with a whitespace-carrying
`resource_prefix` override. -/
def demoWsCfg : Cfg := ("resource_prefix", "sw m") :: demoCfgPrimary

/-- The security group composed from the whitespace-carrying configuration. -/
def demoWsSg : SecurityGroupR :=
  match create_canary_security_group demoWsCfg demoVpc with
  | Except.ok sg => sg
  | Except.error _ => fallbackSg

/-- Counterexample to C5 as stated: the composers accept configuration values
containing whitespace and interpolate them verbatim, so a composed resource
name can contain whitespace. -/
theorem C5_whitespace_counterexample :
    create_canary_security_group demoWsCfg demoVpc = Except.ok demoWsSg ∧
    (demoWsSg.security_group_name.data.any Char.isWhitespace) = true :=
  ⟨rfl, by decide⟩

/-- Whitespace-freedom distributes over string concatenation. -/
theorem no_ws_append (s t : String) : no_ws (s ++ t) = (no_ws s && no_ws t) := by
  simp [no_ws, String.data_append, List.all_append]

/-- The dash separator of the naming scheme is whitespace-free. -/
theorem no_ws_dash : no_ws "-" = true := rfl

/-- C5 (amended): composition is deterministic — recomposition from the same
inputs yields identical output, and the naming scheme is a pure function of
exactly the five naming keys (contexts agreeing on those keys compose
identical names); composed names are whitespace-free provided the
interpolated configuration fields and the distinguishing part are
whitespace-free (the code itself never validates this). -/
theorem C5_determinism_amended :
    (∀ (vcl : String → String) (acct rg : String) (c : Cfg)
        (apps : List ApplicationConfig),
        cloud_infra_init vcl acct rg c apps = cloud_infra_init vcl acct rg c apps) ∧
    (∀ (c₁ c₂ : Cfg) (mid : String),
        (∀ k ∈ naming_keys, cfgGet? c₁ k = cfgGet? c₂ k) →
        nameOf c₁ mid = nameOf c₂ mid) ∧
    (∀ (c : Cfg) (mid rp sn ae an sfx : String),
        cfgGet? c "resource_prefix" = some rp →
        cfgGet? c "service_name" = some sn →
        cfgGet? c "app_env" = some ae →
        cfgGet? c "app_name" = some an →
        cfgGet? c "resource_suffix" = some sfx →
        no_ws rp = true → no_ws sn = true → no_ws ae = true → no_ws an = true →
        no_ws sfx = true → no_ws mid = true →
        ∃ nm, nameOf c mid = Except.ok nm ∧ no_ws nm = true) := by
  refine ⟨fun vcl acct rg c apps => rfl, ?_, ?_⟩
  · intro c₁ c₂ mid H
    have e1 := H "resource_prefix" (by simp [naming_keys])
    have e2 := H "service_name" (by simp [naming_keys])
    have e3 := H "app_env" (by simp [naming_keys])
    have e4 := H "app_name" (by simp [naming_keys])
    have e5 := H "resource_suffix" (by simp [naming_keys])
    simp only [nameOf, cfgGet, e1, e2, e3, e4, e5]
  · intro c mid rp sn ae an sfx h1 h2 h3 h4 h5 w1 w2 w3 w4 w5 w6
    refine ⟨rp ++ "-" ++ sn ++ "-" ++ ae ++ "-" ++ an ++ "-" ++ mid ++ "-" ++ sfx,
      by simp [nameOf, cfgGet, h1, h2, h3, h4, h5, eseq], ?_⟩
    simp [no_ws_append, no_ws_dash, w1, w2, w3, w4, w5, w6]

/-- Witness for C5 (amended) at the demo primary configuration. -/
theorem C5_determinism_witness :
    ∃ nm, nameOf demoCfgPrimary "canary-sg" = Except.ok nm ∧ no_ws nm = true :=
  C5_determinism_amended.2.2 demoCfgPrimary "canary-sg" "swm" "mra" "dev" "chaos" "a"
    rfl rfl rfl rfl rfl (by decide) (by decide) (by decide) (by decide) (by decide)
    (by decide)

/-- The ECS-task-stop experiment for service `svc-a` at 25 percent on the demo
configuration. -/
def demoStopA : ExperimentTemplateR :=
  match create_fis_ecs_task_stop_experiment demoCfgPrimary demoFisRole demoLogGroup
      "svc-a" "25" with
  | Except.ok e => e
  | Except.error _ => fallbackExperiment

/-- The ECS-task-stop experiment for service `svc-b` at 25 percent on the demo
configuration. -/
def demoStopB : ExperimentTemplateR :=
  match create_fis_ecs_task_stop_experiment demoCfgPrimary demoFisRole demoLogGroup
      "svc-b" "25" with
  | Except.ok e => e
  | Except.error _ => fallbackExperiment

/-- Counterexample to C10 as stated: two ECS-task-stop invocations differing
only in `ecs_app_name` do produce identical targets, but `ecs_app_name`
does not affect only the template's name, description and tags — the
embedded action differs as well (its description interpolates
`ecs_app_name`). -/
theorem C10_action_description_counterexample :
    create_fis_ecs_task_stop_experiment demoCfgPrimary demoFisRole demoLogGroup
        "svc-a" "25" = Except.ok demoStopA ∧
    create_fis_ecs_task_stop_experiment demoCfgPrimary demoFisRole demoLogGroup
        "svc-b" "25" = Except.ok demoStopB ∧
    demoStopA.targets = demoStopB.targets ∧
    ¬(demoStopA.actions = demoStopB.actions) :=
  ⟨rfl, rfl, by decide, by decide⟩

/-- C10 (amended): for two ECS-task-stop invocations differing only in
`ecs_app_name`, the produced targets are identical — the target's `cluster`
and `service` parameters are fixed strings built from the configuration with
constant `mra` and `fra` segments and do not depend on `ecs_app_name` — and
so are the role, experiment options, log configuration, stop conditions, and
every part of the action except its description; `ecs_app_name` affects only
the template's name, the two descriptions, and the tags. -/
theorem C10_target_independence_amended :
    ∀ (c : Cfg) (role : RoleR) (lg : LogGroupR) (n₁ n₂ p : String)
      (e₁ e₂ : ExperimentTemplateR),
      create_fis_ecs_task_stop_experiment c role lg n₁ p = Except.ok e₁ →
      create_fis_ecs_task_stop_experiment c role lg n₂ p = Except.ok e₂ →
      e₁.targets = e₂.targets ∧
      e₁.role_arn = e₂.role_arn ∧
      e₁.account_targeting = e₂.account_targeting ∧
      e₁.empty_target_resolution_mode = e₂.empty_target_resolution_mode ∧
      e₁.log_group_arn = e₂.log_group_arn ∧
      e₁.stop_condition_sources = e₂.stop_condition_sources ∧
      e₁.log_schema_version = e₂.log_schema_version ∧
      e₁.actions.map (fun ap => (ap.1, ap.2.action_id, ap.2.parameters, ap.2.targets)) =
        e₂.actions.map (fun ap => (ap.1, ap.2.action_id, ap.2.parameters, ap.2.targets)) ∧
      ∃ rp ae sfx, cfgGet? c "resource_prefix" = some rp ∧
        cfgGet? c "app_env" = some ae ∧ cfgGet? c "resource_suffix" = some sfx ∧
        e₁.targets =
          [ ("ECSTaskStop",
              { resource_type := "aws:ecs:task", resource_arns := [], resource_tags := [],
                parameters :=
                  [ ("cluster", rp ++ "-mra-" ++ ae ++ "-ecs-cluster-fra-" ++ sfx),
                    ("service", rp ++ "-mra-" ++ ae ++ "-ecs-service-fra-" ++ sfx) ],
                selection_mode := "PERCENT(" ++ p ++ ")" }) ] := by
  intro c role lg n₁ n₂ p e₁ e₂ h1 h2
  unfold create_fis_ecs_task_stop_experiment at h1 h2
  obtain ⟨nm1, hnm1, h1⟩ := eseq_ok h1
  obtain ⟨rp1, hrp1, h1⟩ := eseq_ok h1
  obtain ⟨ae1, hae1, h1⟩ := eseq_ok h1
  obtain ⟨sfx1, hsfx1, h1⟩ := eseq_ok h1
  cases h1
  obtain ⟨nm2, hnm2, h2⟩ := eseq_ok h2
  obtain ⟨rp2, hrp2, h2⟩ := eseq_ok h2
  obtain ⟨ae2, hae2, h2⟩ := eseq_ok h2
  obtain ⟨sfx2, hsfx2, h2⟩ := eseq_ok h2
  cases h2
  rw [hrp1] at hrp2
  injection hrp2 with hrp
  subst hrp
  rw [hae1] at hae2
  injection hae2 with hae
  subst hae
  rw [hsfx1] at hsfx2
  injection hsfx2 with hsfx
  subst hsfx
  exact ⟨rfl, rfl, rfl, rfl, rfl, rfl, rfl, rfl, rp1, ae1, sfx1,
    cfgGet_ok_iff.mp hrp1, cfgGet_ok_iff.mp hae1, cfgGet_ok_iff.mp hsfx1, rfl⟩

/-- Witness for C10 (amended): identical targets at the demo inputs. -/
theorem C10_target_independence_witness :
    demoStopA.targets = demoStopB.targets :=
  (C10_target_independence_amended demoCfgPrimary demoFisRole demoLogGroup
    "svc-a" "svc-b" "25" demoStopA demoStopB rfl rfl).1

/-- The name the ECS-task-stop composer assembles for given naming fields and
a (service, percent) pair (proof helper mirroring `nameOf`). -/
def taskstop_name (rp sn ae an sfx s p : String) : String :=
  rp ++ "-" ++ sn ++ "-" ++ ae ++ "-" ++ an ++ "-" ++
    ("ecs-taskstop-" ++ s ++ "-p" ++ p ++ "-experiment") ++ "-" ++ sfx

/-- The explicit record `create_fis_ecs_task_stop_experiment` produces on a
configuration carrying the given naming fields (proof helper). -/
def taskstop_template (rp sn ae an sfx : String) (role : RoleR) (lg : LogGroupR)
    (s p : String) : ExperimentTemplateR :=
  { id := taskstop_name rp sn ae an sfx s p
    description := "Stop ECS Task for service app " ++ s ++ " with percent " ++ p
    role_arn := role.role_arn
    targets :=
      [ ("ECSTaskStop",
          { resource_type := "aws:ecs:task", resource_arns := [], resource_tags := [],
            parameters :=
              [ ("cluster", rp ++ "-mra-" ++ ae ++ "-ecs-cluster-fra-" ++ sfx),
                ("service", rp ++ "-mra-" ++ ae ++ "-ecs-service-fra-" ++ sfx) ],
            selection_mode := "PERCENT(" ++ p ++ ")" }) ]
    actions :=
      [ ("ECSTaskStopAction",
          { action_id := "aws:ecs:stop-task"
            description := some ("ECS Task Stop for service app " ++ s ++
              " with percent " ++ p)
            parameters := []
            targets := [("Tasks", "ECSTaskStop")] }) ]
    account_targeting := "single-account"
    empty_target_resolution_mode := "fail"
    log_group_arn := lg.log_group_arn
    log_schema_version := 2
    stop_condition_sources := ["none"]
    tags := [("Name", taskstop_name rp sn ae an sfx s p), ("Environment", ae)] }

/-- Splitting a character list at a separator absent from both suffixes is
unambiguous (the shown separator is the last one). -/
theorem last_sep_eq {u₁ u₂ v₁ v₂ : List Char} (h₁ : '-' ∉ v₁) (h₂ : '-' ∉ v₂)
    (h : u₁ ++ '-' :: v₁ = u₂ ++ '-' :: v₂) : u₁ = u₂ ∧ v₁ = v₂ := by
  induction u₁ generalizing u₂ with
  | nil =>
      cases u₂ with
      | nil => simpa using h
      | cons b u₂' =>
          simp only [List.nil_append, List.cons_append] at h
          injection h with hb hv
          rw [hv] at h₁
          exact absurd (by simp : ('-' : Char) ∈ u₂' ++ '-' :: v₂) h₁
  | cons a u₁' ih =>
      cases u₂ with
      | nil =>
          simp only [List.cons_append, List.nil_append] at h
          injection h with ha hv
          rw [← hv] at h₂
          exact absurd (by simp : ('-' : Char) ∈ u₁' ++ '-' :: v₁) h₂
      | cons b u₂' =>
          simp only [List.cons_append] at h
          injection h with hab h'
          obtain ⟨hu, hv⟩ := ih h'
          exact ⟨by rw [hab, hu], hv⟩

/-- `last_sep_eq` through a common tail. -/
theorem sep_tail_inj {u₁ u₂ v₁ v₂ tl : List Char} (h₁ : '-' ∉ v₁) (h₂ : '-' ∉ v₂)
    (h : u₁ ++ '-' :: (v₁ ++ tl) = u₂ ++ '-' :: (v₂ ++ tl)) : u₁ = u₂ ∧ v₁ = v₂ := by
  have h' : (u₁ ++ '-' :: v₁) ++ tl = (u₂ ++ '-' :: v₂) ++ tl := by
    simpa [List.append_assoc] using h
  exact last_sep_eq h₁ h₂ (List.append_cancel_right h')

/-- Strings with equal character data are equal. -/
theorem str_data_inj {s t : String} (h : s.data = t.data) : s = t := by
  cases s
  cases t
  cases h
  rfl

/-- Injectivity of the ECS-task-stop name in the (service, percent) pair,
provided the percent strings contain no dash. -/
theorem taskstop_name_inj {rp sn ae an sfx s₁ p₁ s₂ p₂ : String}
    (hp₁ : ('-' : Char) ∉ p₁.data) (hp₂ : ('-' : Char) ∉ p₂.data)
    (h : taskstop_name rp sn ae an sfx s₁ p₁ = taskstop_name rp sn ae an sfx s₂ p₂) :
    s₁ = s₂ ∧ p₁ = p₂ := by
  have hd := congrArg String.data h
  simp only [taskstop_name, String.data_append, List.append_assoc] at hd
  replace hd := List.append_cancel_left hd
  replace hd := List.append_cancel_left hd
  replace hd := List.append_cancel_left hd
  replace hd := List.append_cancel_left hd
  replace hd := List.append_cancel_left hd
  replace hd := List.append_cancel_left hd
  replace hd := List.append_cancel_left hd
  replace hd := List.append_cancel_left hd
  replace hd := List.append_cancel_left hd
  simp only [List.cons_append, List.nil_append] at hd
  have hv₁ : ('-' : Char) ∉ 'p' :: p₁.data := by
    intro hm
    rcases List.mem_cons.mp hm with hEq | hm
    · exact absurd hEq (by decide)
    · exact hp₁ hm
  have hv₂ : ('-' : Char) ∉ 'p' :: p₂.data := by
    intro hm
    rcases List.mem_cons.mp hm with hEq | hm
    · exact absurd hEq (by decide)
    · exact hp₂ hm
  obtain ⟨hs, hp⟩ := sep_tail_inj hv₁ hv₂ (by simpa using hd)
  injection hp with hph hp
  exact ⟨str_data_inj hs, str_data_inj hp⟩

/-- Flattening a map of maps enumerates the Cartesian product. -/
theorem flatten_map_eq_product_map {α β γ : Type} (g : α → β → γ) :
    ∀ (l₁ : List α) (l₂ : List β),
      ((l₁.map (fun a => l₂.map (g a))).flatten) =
        (l₁.product l₂).map (fun ab => g ab.1 ab.2) := by
  intro l₁ l₂
  induction l₁ with
  | nil => rfl
  | cons a as ih =>
      simp only [List.map_cons, List.flatten_cons, ih, List.product, List.flatMap_cons,
        List.map_append, List.map_map]
      rfl

/-- Flattening a map whose blocks share a length multiplies lengths. -/
theorem length_flatten_const {α β : Type} (f : α → List β) (n : Nat)
    (h : ∀ a, (f a).length = n) :
    ∀ l : List α, ((l.map f).flatten).length = l.length * n := by
  intro l
  induction l with
  | nil => simp
  | cons a as ih =>
      simp only [List.map_cons, List.flatten_cons, List.length_append, ih, h a,
        List.length_cons]
      rw [Nat.succ_mul, Nat.add_comm]

/-- The demo primary configuration with crafted ECS lists that make two
distinct (service, percent) tuples compose the same name. -/
def collideCfg : Cfg :=
  ("ecs_services", "a-p2,a") :: ("ecs_taks_percents", "5,2-p5") :: demoCfgPrimary

/-- The ECS-task-stop fan-out output on the colliding configuration. -/
def collideRs : List Resource :=
  match ecs_stop_phase collideCfg demoFisRole demoLogGroup with
  | Except.ok rs => rs
  | Except.error _ => []

/-- Counterexample to C3 as stated: with services `a-p2,a` and percents
`5,2-p5` the fan-out produces its `|services| * |percentages| = 4` templates,
but the distinct tuples `("a-p2","5")` and `("a","2-p5")` compose the same
name, so the names are not pairwise distinct. -/
theorem C3_name_collision_counterexample :
    ecs_stop_phase collideCfg demoFisRole demoLogGroup = Except.ok collideRs ∧
    collideRs.length = 4 ∧
    (("a-p2", "5") : String × String) ≠ ("a", "2-p5") ∧
    ¬((collideRs.map resource_display_name).Nodup) :=
  ⟨rfl, rfl, by decide, by decide⟩

/-- C3 (amended): whenever the service list and the percent list each have no
duplicate entries and every percent string is dash-free, the fan-out driver
produces exactly `|services| * |percentages|` ECS-task-stop experiment
templates with pairwise-distinct names; and in a non-primary region no
ECS-task-stop experiment is composed at all. -/
theorem C3_ecs_fanout_amended :
    (∀ (c : Cfg) (fr : RoleR) (lg : LogGroupR) (svcs pcts rp sn ae an sfx : String),
        cfgGet? c "resource_prefix" = some rp →
        cfgGet? c "service_name" = some sn →
        cfgGet? c "app_env" = some ae →
        cfgGet? c "app_name" = some an →
        cfgGet? c "resource_suffix" = some sfx →
        cfgGet? c "ecs_services" = some svcs →
        cfgGet? c "ecs_taks_percents" = some pcts →
        (splitComma svcs).Nodup →
        (splitComma pcts).Nodup →
        (∀ p ∈ splitComma pcts, ('-' : Char) ∉ p.data) →
        ∃ rs, ecs_stop_phase c fr lg = Except.ok rs ∧
          rs.length = (splitComma svcs).length * (splitComma pcts).length ∧
          (rs.map resource_display_name).Nodup) ∧
    (∀ (vcl : String → String) (acct rg : String) (c : Cfg)
        (apps : List ApplicationConfig),
        is_primary c = false →
        ((cloud_infra_init vcl acct rg c apps).1.countP
          (has_action "aws:ecs:stop-task")) = 0) := by
  constructor
  · intro c fr lg svcs pcts rp sn ae an sfx h1 h2 h3 h4 h5 hsv hpc hnds hndp hdash
    have hname : ∀ mid, nameOf c mid = Except.ok
        (rp ++ "-" ++ sn ++ "-" ++ ae ++ "-" ++ an ++ "-" ++ mid ++ "-" ++ sfx) := by
      intro mid
      simp [nameOf, cfgGet, h1, h2, h3, h4, h5, eseq]
    have hE : ∀ s p, create_fis_ecs_task_stop_experiment c fr lg s p =
        Except.ok (taskstop_template rp sn ae an sfx fr lg s p) := by
      intro s p
      simp [create_fis_ecs_task_stop_experiment, taskstop_template, taskstop_name,
        hname, cfgGet, h1, h3, h5, eseq]
    have hInnerOk : ∀ s, eseq (cfgGet c "ecs_taks_percents") (fun pcts0 =>
        exceptMapM (fun p => create_fis_ecs_task_stop_experiment c fr lg s p)
          (splitComma pcts0)) =
        Except.ok ((splitComma pcts).map
          (fun p => taskstop_template rp sn ae an sfx fr lg s p)) := by
      intro s
      rw [show cfgGet c "ecs_taks_percents" = Except.ok pcts from cfgGet_ok_iff.mpr hpc,
        eseq_ok_left]
      exact exceptMapM_ok_of_forall (fun p _ => hE s p)
    have hPhase : ecs_stop_phase c fr lg = Except.ok
        ((((splitComma svcs).map (fun s => (splitComma pcts).map
          (fun p => taskstop_template rp sn ae an sfx fr lg s p))).flatten).map
            Resource.experiment) := by
      unfold ecs_stop_phase
      rw [show cfgGet c "ecs_services" = Except.ok svcs from cfgGet_ok_iff.mpr hsv,
        eseq_ok_left, exceptMapM_ok_of_forall (fun s _ => hInnerOk s), eseq_ok_left]
    refine ⟨_, hPhase, ?_, ?_⟩
    · simp only [List.length_map]
      exact length_flatten_const _ _ (fun s => by simp) _
    · rw [List.map_map, flatten_map_eq_product_map
        (fun s p => taskstop_template rp sn ae an sfx fr lg s p), List.map_map]
      refine List.Nodup.map_on ?_ (List.Nodup.product hnds hndp)
      intro x hx y hy hEq
      have hx2 := (List.mem_product.mp hx).2
      have hy2 := (List.mem_product.mp hy).2
      obtain ⟨hs, hp⟩ := taskstop_name_inj (hdash x.2 hx2) (hdash y.2 hy2) hEq
      exact Prod.ext hs hp
  · intro vcl acct rg c apps hp
    rw [List.countP_eq_zero]
    intro r hr hact
    have hexp : is_experiment_res r = true := by
      cases r <;> first | rfl | simp [has_action] at hact
    exact absurd ((init_resources_sound r hr).2.1 hexp) (by simp [hp])

/-- Witness for C3 (amended): the spec's scenario — services `svc-a,svc-b`,
percents `25,50` — yields exactly `2 * 2 = 4` templates with distinct names. -/
theorem C3_ecs_fanout_witness :
    ∃ rs, ecs_stop_phase demoCfgPrimary demoFisRole demoLogGroup = Except.ok rs ∧
      rs.length = 2 * 2 ∧ (rs.map resource_display_name).Nodup :=
  C3_ecs_fanout_amended.1 demoCfgPrimary demoFisRole demoLogGroup
    "svc-a,svc-b" "25,50" "swm" "mra" "dev" "chaos" "a"
    rfl rfl rfl rfl rfl rfl rfl (by decide) (by decide) (by decide)

end CloudInfra
